import Mathlib

/-!
Verification of the metric-resolution engine of the `sec_parser` repository
(`sec/stock.py`), against its natural-language specification.

The resolution engine works on one company's processed financials table: a
pandas DataFrame indexed by filing-date strings (`YYYY-MM-DD`), with a boolean
`annual` column and one `{tag}_{units}` column per reported concept/unit pair
(cells may be missing, i.e. NaN).  We embed the table shallowly:

  * a `Row` is one filing date with its `annual` flag and its cells;
  * `Financials` carries the column list (pandas column index) and the rows in
    stored order (the ETL in `processor.py` sorts the index ascending);
  * values are modelled as `Int` (the concrete filings the claims speak about
    are integer-valued; float rounding is irrelevant to the resolution logic);
  * ratios, which Python computes with float division, are modelled in `ℚ`;
  * a Python `ValueError` / `KeyError` is an explicit `Err` value, so that the
    difference between `except ValueError` (in `get_concept`) and a bare
    `except:` (everywhere else) is captured faithfully;
  * `datetime.today()` is passed in as an explicit `today` argument.

Date strings are compared exactly as pandas compares a string index with a
string bound: code-point lexicographic order (`strLeB`).  `strptime`,
`timedelta` and `relativedelta(years=1)` are embedded as executable calendar
arithmetic on a `Date` triple.
-/

/-! ### Python string comparison (code-point lexicographic order) -/

def charListLt : List Char → List Char → Bool
  | [], [] => false
  | [], _ :: _ => true
  | _ :: _, [] => false
  | a :: as, b :: bs =>
    if a.toNat < b.toNat then true
    else if b.toNat < a.toNat then false
    else charListLt as bs

/-- Python `a < b` on strings. -/
def strLtB (a b : String) : Bool := charListLt a.data b.data

/-- Python `a <= b` on strings. -/
def strLeB (a b : String) : Bool := ! strLtB b a

/-! ### Calendar arithmetic: `datetime.strptime`, `timedelta`, `relativedelta` -/

structure Date where
  y : Int
  m : Int
  d : Int
deriving DecidableEq

def digitsToNat (cs : List Char) : Nat :=
  cs.foldl (fun acc c => 10 * acc + (c.toNat - 48)) 0

/-- One `%Y`/`%m`/`%d` field of `strptime`: 1 to `maxLen` decimal digits. -/
def parseNatPart (cs : List Char) (maxLen : Nat) : Option Nat :=
  if cs.length = 0 ∨ cs.length > maxLen then none
  else if cs.all Char.isDigit then some (digitsToNat cs) else none

def splitDash : List Char → List Char → List (List Char)
  | [], acc => [acc.reverse]
  | c :: rest, acc =>
    if c = '-' then acc.reverse :: splitDash rest []
    else splitDash rest (c :: acc)

def isLeap (y : Int) : Bool := y % 4 = 0 ∧ (y % 100 ≠ 0 ∨ y % 400 = 0)

def daysInMonth (y m : Int) : Int :=
  if m = 2 then (if isLeap y then 29 else 28)
  else if m = 4 ∨ m = 6 ∨ m = 9 ∨ m = 11 then 30
  else 31

/-- `datetime.strptime(s, "%Y-%m-%d")`: `none` models the raised `ValueError`. -/
def strptime (s : String) : Option Date :=
  match splitDash s.data [] with
  | [ys, ms, ds] =>
    match parseNatPart ys 4, parseNatPart ms 2, parseNatPart ds 2 with
    | some y, some m, some d =>
      if 1 ≤ y ∧ y ≤ 9999 ∧ 1 ≤ m ∧ m ≤ 12 ∧ 1 ≤ d ∧ (d : Int) ≤ daysInMonth y m
      then some ⟨y, m, d⟩ else none
    | _, _, _ => none
  | _ => none

/-- Days since 1970-01-01 of a civil date (standard days-from-civil algorithm). -/
def daysFromCivil (dt : Date) : Int :=
  let y := if dt.m ≤ 2 then dt.y - 1 else dt.y
  let era := (if 0 ≤ y then y else y - 399) / 400
  let yoe := y - era * 400
  let mp := (dt.m + 9) % 12
  let doy := (153 * mp + 2) / 5 + dt.d - 1
  let doe := yoe * 365 + yoe / 4 - yoe / 100 + doy
  era * 146097 + doe - 719468

/-- Civil date of a day count since 1970-01-01 (standard civil-from-days). -/
def civilFromDays (z0 : Int) : Date :=
  let z := z0 + 719468
  let era := (if 0 ≤ z then z else z - 146096) / 146097
  let doe := z - era * 146097
  let yoe := (doe - doe / 1460 + doe / 36524 - doe / 146096) / 365
  let y := yoe + era * 400
  let doy := doe - (365 * yoe + yoe / 4 - yoe / 100)
  let mp := (5 * doy + 2) / 153
  let d := doy - (153 * mp + 2) / 5 + 1
  let m := mp + (if mp < 10 then 3 else -9)
  ⟨y + (if m ≤ 2 then 1 else 0), m, d⟩

def pad2 (n : Int) : String := if n < 10 then "0" ++ toString n else toString n

def pad4 (n : Int) : String :=
  if n < 10 then "000" ++ toString n
  else if n < 100 then "00" ++ toString n
  else if n < 1000 then "0" ++ toString n
  else toString n

/-- `dt.strftime("%Y-%m-%d")`. -/
def strftime (dt : Date) : String := pad4 dt.y ++ "-" ++ pad2 dt.m ++ "-" ++ pad2 dt.d

/-- `(dt - timedelta(weeks=tolerance)).strftime("%Y-%m-%d")`: the lower bound of
the tolerance window in `Stock.get_metric`. -/
def weeksAgoStr (dt : Date) (tolerance : Int) : String :=
  strftime (civilFromDays (daysFromCivil dt - 7 * tolerance))

/-- `dt - relativedelta(years=1)`: same month/day one year earlier, with the day
clamped to the length of the target month (Feb 29 becomes Feb 28). -/
def yearAgo (dt : Date) : Date :=
  let y := dt.y - 1
  let dim := daysInMonth y dt.m
  ⟨y, dt.m, if dt.d ≤ dim then dt.d else dim⟩

/-! ### Data model: one company's processed financials table -/

/-- One row of the processed financials DataFrame: a filing date (the index),
its `annual` flag, and the value cells (`none` models a NaN cell). -/
structure Row where
  date : String
  annual : Bool
  cells : List (String × Option Int)
deriving DecidableEq

/-- The DataFrame: its column index and its rows in stored order (the ETL
sorts the date index ascending before saving). -/
structure Financials where
  cols : List String
  rows : List Row
deriving DecidableEq

structure Stock where
  ticker : String
  financials : Financials
deriving DecidableEq

/-- The value of a row in an existing column (`none` = NaN). -/
def Row.get (r : Row) (column : String) : Option Int :=
  match r.cells.lookup column with
  | some v => v
  | none => none

/-- A raised Python exception: `get_concept` catches only `valueError`, while
the derived getters use bare `except:` blocks that catch both. -/
inductive Err where
  | valueError (msg : String)
  | keyError (key : String)
deriving DecidableEq

/-- Result of a resolution: a value or a raised exception. -/
inductive Res where
  | ok (v : Int)
  | err (e : Err)
deriving DecidableEq

/-- `try: x = f(...) except: x = 0` — the bare-except zero substitution used by
the fallback aggregates. -/
def Res.orZero : Res → Int
  | Res.ok v => v
  | Res.err _ => 0

def Res.isValueError : Res → Bool
  | Res.err (Err.valueError _) => true
  | _ => false

def Res.isOk : Res → Bool
  | Res.ok _ => true
  | _ => false

/-- `ValueError` message raised by `datetime.strptime` on a malformed date. -/
def strptimeMsg (s : String) : String :=
  "time data " ++ s ++ " does not match format %Y-%m-%d"

/-- The `Could not find ...` `ValueError` message shared by `get_metric`,
`get_concept` and the fallback aggregates. -/
def notFoundMsg (period name ticker : String) (tolerance : Int) (qd : String) : String :=
  "Could not find " ++ period ++ " " ++ name ++ " for " ++ ticker ++ " within "
    ++ toString tolerance ++ " weeks of " ++ qd ++ "."

def periodStr (quarterly : Bool) : String := if quarterly then "quarterly" else "annual"

/-- `query_date` as it appears in an error message raised while it may still be
`None`: `if query_date is None: query_date = "today"`. -/
def qdateOrToday : Option String → String
  | none => "today"
  | some d => d

/-! ### `Stock.get_metric` — the window-filtering metric resolver -/

/-- The successive DataFrame filters of `Stock.get_metric`, lines 58-70 of the
source: annual-only unless `quarterly`, non-NaN cell in `column`, index at or
before the query date, index at or after the tolerance lower bound. -/
def metricWindow (s : Stock) (column qd : String) (quarterly : Bool) (dt : Date)
    (tolerance : Int) : List Row :=
  let df0 := if quarterly then s.financials.rows
             else s.financials.rows.filter (fun r => r.annual)
  let df1 := df0.filter (fun r => (r.get column).isSome)
  let df2 := df1.filter (fun r => strLeB r.date qd)
  df2.filter (fun r => strLeB (weeksAgoStr dt tolerance) r.date)

/-- `Stock.get_metric`.  Mirrors the source line by line: default the query
date to today; keep annual rows unless `quarterly`; select the
`{metric}_{units}` column (`KeyError` if the DataFrame lacks it); drop NaN
cells; keep `index <= query_date` (string comparison); parse the query date
(`ValueError` if malformed) and keep `index >= query_date - tolerance` weeks;
raise the not-found `ValueError` if nothing is left, else return the value of
the last remaining row. -/
def get_metric (s : Stock) (metric units : String) (query_date : Option String)
    (quarterly : Bool) (tolerance : Int) (today : String) : Res :=
  let qd := query_date.getD today
  let column := metric ++ "_" ++ units
  if s.financials.cols.contains column = false then Res.err (Err.keyError column)
  else
    match strptime qd with
    | none => Res.err (Err.valueError (strptimeMsg qd))
    | some dt =>
      match (metricWindow s column qd quarterly dt tolerance).getLast? with
      | none =>
        Res.err (Err.valueError
          (notFoundMsg (periodStr quarterly) metric s.ticker tolerance qd))
      | some r => Res.ok ((r.get column).getD 0)

/-! ### `Stock.get_concept` — ordered candidate-tag resolution -/

/-- The `for tag in tags: try ... except ValueError: pass` loop of
`Stock.get_concept`: `none` means every tag raised `ValueError`; `some r`
means the loop returned a value or re-raised a non-`ValueError` exception. -/
def conceptLoop (s : Stock) (tags : List String) (units : String)
    (query_date : Option String) (quarterly : Bool) (tolerance : Int)
    (today : String) : Option Res :=
  match tags with
  | [] => none
  | t :: rest =>
    match get_metric s t units query_date quarterly tolerance today with
    | Res.ok v => some (Res.ok v)
    | Res.err (Err.valueError _) =>
      conceptLoop s rest units query_date quarterly tolerance today
    | Res.err e => some (Res.err e)

/-- `Stock.get_concept`: try each tag in order, return the first success; if
the loop falls through, raise the not-found `ValueError` naming the concept. -/
def get_concept (s : Stock) (concept : String) (tags : List String) (units : String)
    (query_date : Option String) (quarterly : Bool) (tolerance : Int)
    (today : String) : Res :=
  match conceptLoop s tags units query_date quarterly tolerance today with
  | some r => r
  | none =>
    Res.err (Err.valueError
      (notFoundMsg (periodStr quarterly) concept s.ticker tolerance
        (qdateOrToday query_date)))

/-! ### The concept catalog (`Stock.get_*` getters) -/

/-- `Stock.get_shares_outstanding`. -/
def get_shares_outstanding (s : Stock) (query_date : Option String) (quarterly : Bool)
    (tolerance : Int) (today : String) : Res :=
  get_concept s "shares outstanding"
    ["EntityCommonStockSharesOutstanding",
     "WeightedAverageNumberOfSharesOutstandingBasic",
     "CommonStockSharesOutstanding"]
    "shares" query_date quarterly tolerance today

/-- `Stock.get_net_income`. -/
def get_net_income (s : Stock) (query_date : Option String) (quarterly : Bool)
    (tolerance : Int) (today : String) : Res :=
  get_concept s "net income"
    ["NetIncomeLoss", "ProfitLoss",
     "NetIncomeLossAvailableToCommonStockholdersBasic",
     "IncomeLossFromContinuingOperations"]
    "USD" query_date quarterly tolerance today

/-- `Stock.get_interest_expense`: the resolved value is wrapped in `abs(...)`. -/
def get_interest_expense (s : Stock) (query_date : Option String) (quarterly : Bool)
    (tolerance : Int) (today : String) : Res :=
  match get_concept s "interest expense"
    ["InterestExpense", "InterestExpenseDebt", "InterestAndDebtExpense",
     "InterestExpenseBorrowings", "InterestIncomeExpenseNonoperatingNet",
     "InterestCostsIncurred", "InterestIncomeExpenseNet", "InterestPaidNet",
     "InterestPaid"]
    "USD" query_date quarterly tolerance today with
  | Res.ok v => Res.ok (if v < 0 then -v else v)
  | Res.err e => Res.err e

/-- `Stock.get_tax_expense`: three direct tags; on any failure fall back to
pretax income (`ProfitLoss`) minus net income. -/
def get_tax_expense (s : Stock) (query_date : Option String) (quarterly : Bool)
    (tolerance : Int) (today : String) : Res :=
  match get_concept s "tax expense"
    ["IncomeTaxExpenseBenefit", "IncomeTaxExpenseBenefitContinuingOperations",
     "CurrentIncomeTaxExpenseBenefit"]
    "USD" query_date quarterly tolerance today with
  | Res.ok v => Res.ok v
  | Res.err _ =>
    match get_concept s "pretax income" ["ProfitLoss"] "USD"
        query_date quarterly tolerance today with
    | Res.err e => Res.err e
    | Res.ok pretax_income =>
      match get_net_income s query_date quarterly tolerance today with
      | Res.err e => Res.err e
      | Res.ok net_income => Res.ok (pretax_income - net_income)

/-- `Stock.get_revenue`. -/
def get_revenue (s : Stock) (query_date : Option String) (quarterly : Bool)
    (tolerance : Int) (today : String) : Res :=
  get_concept s "revenue"
    ["Revenues", "SalesRevenueNet", "SalesRevenueGoodsNet",
     "SalesRevenueServicesNet", "SalesRevenueNetOfInterestExpense",
     "RevenueFromContractWithCustomerExcludingAssessedTax",
     "RevenueFromContractWithCustomerIncludingAssessedTax",
     "RevenuesNetOfInterestExpense",
     "OperatingLeasesIncomeStatementLeaseRevenue",
     "OperatingLeaseLeaseIncome", "RegulatedAndUnregulatedOperatingRevenue"]
    "USD" query_date quarterly tolerance today

/-- `Stock.get_cost_of_revenue`. -/
def get_cost_of_revenue (s : Stock) (query_date : Option String) (quarterly : Bool)
    (tolerance : Int) (today : String) : Res :=
  get_concept s "cost of revenue"
    ["CostOfRevenue", "CostOfGoodsAndServicesSold", "CostOfGoodsSold",
     "CostOfServices"]
    "USD" query_date quarterly tolerance today

/-- `Stock.get_operating_expenses`. -/
def get_operating_expenses (s : Stock) (query_date : Option String) (quarterly : Bool)
    (tolerance : Int) (today : String) : Res :=
  get_concept s "operating expenses"
    ["OperatingExpenses", "OperatingCostsAndExpenses"]
    "USD" query_date quarterly tolerance today

/-- `Stock.get_depreciation`. -/
def get_depreciation (s : Stock) (query_date : Option String) (quarterly : Bool)
    (tolerance : Int) (today : String) : Res :=
  get_concept s "depreciation" ["Depreciation"] "USD" query_date quarterly tolerance today

/-- `Stock.get_amortization`. -/
def get_amortization (s : Stock) (query_date : Option String) (quarterly : Bool)
    (tolerance : Int) (today : String) : Res :=
  get_concept s "amortization"
    ["Amortization", "AmortizationOfIntangibleAssets",
     "AmortizationOfDebtDiscountPremium"]
    "USD" query_date quarterly tolerance today

/-- `Stock.get_depreciation_and_amortization`: four direct tags; on any
failure, depreciation-or-0 plus amortization-or-0, re-raising the not-found
`ValueError` when both sub-terms are 0. -/
def get_depreciation_and_amortization (s : Stock) (query_date : Option String)
    (quarterly : Bool) (tolerance : Int) (today : String) : Res :=
  match get_concept s "depreciation and amortization"
    ["DepreciationAndAmortization", "DepreciationDepletionAndAmortization",
     "DepreciationAmortizationAndAccretionNet", "OtherDepreciationAndAmortization"]
    "USD" query_date quarterly tolerance today with
  | Res.ok v => Res.ok v
  | Res.err _ =>
    let depreciation := (get_depreciation s query_date quarterly tolerance today).orZero
    let amortization := (get_amortization s query_date quarterly tolerance today).orZero
    if depreciation = 0 ∧ amortization = 0 then
      Res.err (Err.valueError
        (notFoundMsg (periodStr quarterly) "depreciation and amortization" s.ticker
          tolerance (qdateOrToday query_date)))
    else Res.ok (depreciation + amortization)

/-- `Stock.get_current_debt`. -/
def get_current_debt (s : Stock) (query_date : Option String) (quarterly : Bool)
    (tolerance : Int) (today : String) : Res :=
  get_concept s "current debt"
    ["LongTermDebtCurrent", "LongTermDebtAndCapitalLeaseObligationsCurrent",
     "DebtCurrent", "LongTermDebtMaturitiesRepaymentsOfPrincipalInNextTwelveMonths",
     "LinesOfCreditCurrent", "LineOfCredit", "OperatingLeaseLiabilityCurrent"]
    "USD" query_date quarterly tolerance today

/-- `Stock.get_noncurrent_debt`. -/
def get_noncurrent_debt (s : Stock) (query_date : Option String) (quarterly : Bool)
    (tolerance : Int) (today : String) : Res :=
  get_concept s "noncurrent debt"
    ["LongTermDebtNoncurrent", "ConvertibleLongTermNotesPayable",
     "OperatingLeaseLiabilityNoncurrent", "UnsecuredLongTermDebt",
     "LongTermDebtAndCapitalLeaseObligations"]
    "USD" query_date quarterly tolerance today

/-- `Stock.get_total_debt`: two direct tags; else current-debt-or-0 plus
noncurrent-debt-or-0, failing when both are 0. -/
def get_total_debt (s : Stock) (query_date : Option String) (quarterly : Bool)
    (tolerance : Int) (today : String) : Res :=
  match get_concept s "total debt" ["LongTermDebt", "DebtAndCapitalLeaseObligations"]
    "USD" query_date quarterly tolerance today with
  | Res.ok v => Res.ok v
  | Res.err _ =>
    let current_debt := (get_current_debt s query_date quarterly tolerance today).orZero
    let noncurrent_debt := (get_noncurrent_debt s query_date quarterly tolerance today).orZero
    if current_debt = 0 ∧ noncurrent_debt = 0 then
      Res.err (Err.valueError
        (notFoundMsg (periodStr quarterly) "total debt" s.ticker tolerance
          (qdateOrToday query_date)))
    else Res.ok (current_debt + noncurrent_debt)

/-- `Stock.get_property_plant_equipment`. -/
def get_property_plant_equipment (s : Stock) (query_date : Option String)
    (quarterly : Bool) (tolerance : Int) (today : String) : Res :=
  get_concept s "property, plant, and equipment" ["PropertyPlantAndEquipmentGross"]
    "USD" query_date quarterly tolerance today

/-- `Stock.get_capex`: three direct tags; else PP&E(query date) minus
PP&E(one calendar year earlier) plus D&A(query date), all three sub-calls with
the same `quarterly`/`tolerance` parameters. -/
def get_capex (s : Stock) (query_date : Option String) (quarterly : Bool)
    (tolerance : Int) (today : String) : Res :=
  match get_concept s "capital expenditures"
    ["CapitalExpenditures", "PaymentsToAcquirePropertyPlantAndEquipment",
     "PaymentsToAcquireProductiveAssets"]
    "USD" query_date quarterly tolerance today with
  | Res.ok v => Res.ok v
  | Res.err _ =>
    let qd := query_date.getD today
    match strptime qd with
    | none => Res.err (Err.valueError (strptimeMsg qd))
    | some dt =>
      let one_year_ago := strftime (yearAgo dt)
      match get_property_plant_equipment s (some qd) quarterly tolerance today with
      | Res.err e => Res.err e
      | Res.ok current_ppe =>
        match get_property_plant_equipment s (some one_year_ago) quarterly tolerance today with
        | Res.err e => Res.err e
        | Res.ok previous_ppe =>
          match get_depreciation_and_amortization s (some qd) quarterly tolerance today with
          | Res.err e => Res.err e
          | Res.ok d_and_a => Res.ok (current_ppe - previous_ppe + d_and_a)

/-- `Stock.get_cash`. -/
def get_cash (s : Stock) (query_date : Option String) (quarterly : Bool)
    (tolerance : Int) (today : String) : Res :=
  get_concept s "cash"
    ["Cash", "CashAndCashEquivalentsAtCarryingValue",
     "CashCashEquivalentsRestrictedCashAndRestrictedCashEquivalentsIncludingDisposalGroupAndDiscontinuedOperations",
     "CashCashEquivalentsRestrictedCashAndRestrictedCashEquivalents"]
    "USD" query_date quarterly tolerance today

/-- `Stock.get_marketable_securities`. -/
def get_marketable_securities (s : Stock) (query_date : Option String) (quarterly : Bool)
    (tolerance : Int) (today : String) : Res :=
  get_concept s "marketable securities"
    ["MarketableSecurities", "MarketableSecuritiesCurrent"]
    "USD" query_date quarterly tolerance today

/-- `Stock.get_accounts_receivable`. -/
def get_accounts_receivable (s : Stock) (query_date : Option String) (quarterly : Bool)
    (tolerance : Int) (today : String) : Res :=
  get_concept s "accounts receivable" ["AccountsReceivableNetCurrent"]
    "USD" query_date quarterly tolerance today

/-- `Stock.get_inventory`. -/
def get_inventory (s : Stock) (query_date : Option String) (quarterly : Bool)
    (tolerance : Int) (today : String) : Res :=
  get_concept s "inventory" ["InventoryNet", "InventoryNetCurrent"]
    "USD" query_date quarterly tolerance today

/-- `Stock.get_other_current_assets`. -/
def get_other_current_assets (s : Stock) (query_date : Option String) (quarterly : Bool)
    (tolerance : Int) (today : String) : Res :=
  get_concept s "other current assets"
    ["OtherAssetsCurrent", "PrepaidExpenseAndOtherAssetsCurrent"]
    "USD" query_date quarterly tolerance today

/-- `Stock.get_current_assets`: the `AssetsCurrent` tag; on any failure the sum
of five zero-substituted sub-terms, re-raising the not-found `ValueError`
when the sum is 0. -/
def get_current_assets (s : Stock) (query_date : Option String) (quarterly : Bool)
    (tolerance : Int) (today : String) : Res :=
  match get_concept s "current assets" ["AssetsCurrent"] "USD"
      query_date quarterly tolerance today with
  | Res.ok v => Res.ok v
  | Res.err _ =>
    let cash := (get_cash s query_date quarterly tolerance today).orZero
    let marketable_securities :=
      (get_marketable_securities s query_date quarterly tolerance today).orZero
    let accounts_receivable :=
      (get_accounts_receivable s query_date quarterly tolerance today).orZero
    let inventory := (get_inventory s query_date quarterly tolerance today).orZero
    let other_current_assets :=
      (get_other_current_assets s query_date quarterly tolerance today).orZero
    let current_assets := cash + marketable_securities + accounts_receivable
      + inventory + other_current_assets
    if current_assets = 0 then
      Res.err (Err.valueError
        (notFoundMsg (periodStr quarterly) "current assets" s.ticker tolerance
          (qdateOrToday query_date)))
    else Res.ok current_assets

/-- `Stock.get_accounts_payable`. -/
def get_accounts_payable (s : Stock) (query_date : Option String) (quarterly : Bool)
    (tolerance : Int) (today : String) : Res :=
  get_concept s "accounts payable"
    ["AccountsPayableCurrent", "OtherAccountsPayableAndAccruedLiabilities",
     "AccountsPayableTradeCurrent", "AccountsPayableTradeCurrentAndNoncurrent"]
    "USD" query_date quarterly tolerance today

/-- `Stock.get_taxes_payable`. -/
def get_taxes_payable (s : Stock) (query_date : Option String) (quarterly : Bool)
    (tolerance : Int) (today : String) : Res :=
  get_concept s "taxes payable"
    ["TaxesPayableCurrent", "TaxesPayableCurrentAndNoncurrent",
     "AccruedIncomeTaxesCurrent", "AccruedIncomeTaxes",
     "AccrualForTaxesOtherThanIncomeTaxesCurrent"]
    "USD" query_date quarterly tolerance today

/-- `Stock.get_accrued_salaries`. -/
def get_accrued_salaries (s : Stock) (query_date : Option String) (quarterly : Bool)
    (tolerance : Int) (today : String) : Res :=
  get_concept s "accrued salaries"
    ["AccruedSalariesAndWagesCurrent", "AccruedSalariesCurrent"]
    "USD" query_date quarterly tolerance today

/-- `Stock.get_interest_payable`. -/
def get_interest_payable (s : Stock) (query_date : Option String) (quarterly : Bool)
    (tolerance : Int) (today : String) : Res :=
  get_concept s "interest payable"
    ["InterestPayableCurrent", "InterestPayableCurrentAndNoncurrent"]
    "USD" query_date quarterly tolerance today

/-- `Stock.get_deferred_revenues`. -/
def get_deferred_revenues (s : Stock) (query_date : Option String) (quarterly : Bool)
    (tolerance : Int) (today : String) : Res :=
  get_concept s "deferred revenues"
    ["DeferredRevenueCurrent", "ContractWithCustomerLiability",
     "ContractWithCustomerLiabilityCurrent"]
    "USD" query_date quarterly tolerance today

/-- `Stock.get_accrued_liabilities`. -/
def get_accrued_liabilities (s : Stock) (query_date : Option String) (quarterly : Bool)
    (tolerance : Int) (today : String) : Res :=
  get_concept s "accrued liabilities"
    ["AccruedLiabilitiesCurrent", "AccruedInsuranceCurrent",
     "AccruedLiabilitiesCurrentAndNoncurrent"]
    "USD" query_date quarterly tolerance today

/-- `Stock.get_other_current_liabilities`. -/
def get_other_current_liabilities (s : Stock) (query_date : Option String)
    (quarterly : Bool) (tolerance : Int) (today : String) : Res :=
  get_concept s "other current liabilities"
    ["OtherLiabilitiesCurrent", "OtherAccruedLiabilitiesCurrent",
     "LiabilitiesOfDisposalGroupIncludingDiscontinuedOperationCurrent",
     "DerivativeLiabilitiesCurrent",
     "LiabilitiesOfDisposalGroupIncludingDiscontinuedOperation"]
    "USD" query_date quarterly tolerance today

/-- `Stock.get_current_liabilities`: the `LiabilitiesCurrent` tag; on any
failure the sum of eight zero-substituted sub-terms, re-raising the not-found
`ValueError` when the sum is 0. -/
def get_current_liabilities (s : Stock) (query_date : Option String) (quarterly : Bool)
    (tolerance : Int) (today : String) : Res :=
  match get_concept s "current liabilities" ["LiabilitiesCurrent"] "USD"
      query_date quarterly tolerance today with
  | Res.ok v => Res.ok v
  | Res.err _ =>
    let current_debt := (get_current_debt s query_date quarterly tolerance today).orZero
    let accounts_payable := (get_accounts_payable s query_date quarterly tolerance today).orZero
    let taxes_payable := (get_taxes_payable s query_date quarterly tolerance today).orZero
    let accrued_salaries := (get_accrued_salaries s query_date quarterly tolerance today).orZero
    let interest_payable := (get_interest_payable s query_date quarterly tolerance today).orZero
    let deferred_revenues := (get_deferred_revenues s query_date quarterly tolerance today).orZero
    let accrued_liabilities := (get_accrued_liabilities s query_date quarterly tolerance today).orZero
    let other_liabilities := (get_other_current_liabilities s query_date quarterly tolerance today).orZero
    let current_liabilities := current_debt + accounts_payable + taxes_payable
      + accrued_salaries + interest_payable + deferred_revenues
      + accrued_liabilities + other_liabilities
    if current_liabilities = 0 then
      Res.err (Err.valueError
        (notFoundMsg (periodStr quarterly) "current liabilities" s.ticker tolerance
          (qdateOrToday query_date)))
    else Res.ok current_liabilities

/-- `Stock.get_liabilities_and_equity`. -/
def get_liabilities_and_equity (s : Stock) (query_date : Option String) (quarterly : Bool)
    (tolerance : Int) (today : String) : Res :=
  get_concept s "liabilities and equity" ["LiabilitiesAndStockholdersEquity"]
    "USD" query_date quarterly tolerance today

/-- `Stock.get_stockholders_equity`. -/
def get_stockholders_equity (s : Stock) (query_date : Option String) (quarterly : Bool)
    (tolerance : Int) (today : String) : Res :=
  get_concept s "shareholders equity"
    ["StockholdersEquity",
     "StockholdersEquityIncludingPortionAttributableToNoncontrollingInterest"]
    "USD" query_date quarterly tolerance today

/-- `Stock.get_preferred_stock`. -/
def get_preferred_stock (s : Stock) (query_date : Option String) (quarterly : Bool)
    (tolerance : Int) (today : String) : Res :=
  get_concept s "preferred stock"
    ["PreferredStockValue",
     "PreferredStockValueIncludingPortionAttributableToNoncontrollingInterest"]
    "USD" query_date quarterly tolerance today

/-- `Stock.get_preferred_dividends`. -/
def get_preferred_dividends (s : Stock) (query_date : Option String) (quarterly : Bool)
    (tolerance : Int) (today : String) : Res :=
  get_concept s "preferred dividends" ["DividendsPreferredStock"]
    "USD" query_date quarterly tolerance today

/-- `Stock.get_book_value`: equity (failure propagates) minus
preferred-stock-or-0. -/
def get_book_value (s : Stock) (query_date : Option String) (quarterly : Bool)
    (tolerance : Int) (today : String) : Res :=
  match get_stockholders_equity s query_date quarterly tolerance today with
  | Res.err e => Res.err e
  | Res.ok equity =>
    let preferred_stock := (get_preferred_stock s query_date quarterly tolerance today).orZero
    Res.ok (equity - preferred_stock)

/-- `Stock.get_working_capital`: current assets minus current liabilities,
both failures propagating. -/
def get_working_capital (s : Stock) (query_date : Option String) (quarterly : Bool)
    (tolerance : Int) (today : String) : Res :=
  match get_current_assets s query_date quarterly tolerance today with
  | Res.err e => Res.err e
  | Res.ok current_assets =>
    match get_current_liabilities s query_date quarterly tolerance today with
    | Res.err e => Res.err e
    | Res.ok current_liabilities => Res.ok (current_assets - current_liabilities)

/-- `Stock.get_change_in_working_capital`: working capital at the query date
minus working capital one calendar year earlier, same `quarterly`/`tolerance`. -/
def get_change_in_working_capital (s : Stock) (query_date : Option String)
    (quarterly : Bool) (tolerance : Int) (today : String) : Res :=
  let qd := query_date.getD today
  match strptime qd with
  | none => Res.err (Err.valueError (strptimeMsg qd))
  | some dt =>
    let one_year_ago := strftime (yearAgo dt)
    match get_working_capital s (some qd) quarterly tolerance today with
    | Res.err e => Res.err e
    | Res.ok current_wc =>
      match get_working_capital s (some one_year_ago) quarterly tolerance today with
      | Res.err e => Res.err e
      | Res.ok previous_wc => Res.ok (current_wc - previous_wc)

/-- `Stock.get_operating_cash_flow`: net income + D&A − change in working
capital, all failures propagating. -/
def get_operating_cash_flow (s : Stock) (query_date : Option String) (quarterly : Bool)
    (tolerance : Int) (today : String) : Res :=
  match get_net_income s query_date quarterly tolerance today with
  | Res.err e => Res.err e
  | Res.ok net_income =>
    match get_depreciation_and_amortization s query_date quarterly tolerance today with
    | Res.err e => Res.err e
    | Res.ok d_and_a =>
      match get_change_in_working_capital s query_date quarterly tolerance today with
      | Res.err e => Res.err e
      | Res.ok change_in_wc => Res.ok (net_income + d_and_a - change_in_wc)

/-- `Stock.get_cash_dividends`. -/
def get_cash_dividends (s : Stock) (query_date : Option String) (quarterly : Bool)
    (tolerance : Int) (today : String) : Res :=
  get_concept s "cash dividends"
    ["DividendsCommonStockCash", "DividendsCash", "PaymentsOfDividends",
     "PaymentsOfDividendsCommonStock"]
    "USD" query_date quarterly tolerance today

/-- `Stock.get_share_repurchases`. -/
def get_share_repurchases (s : Stock) (query_date : Option String) (quarterly : Bool)
    (tolerance : Int) (today : String) : Res :=
  get_concept s "share repurchases"
    ["PaymentsForRepurchaseOfCommonStock", "PaymentsForRepurchaseOfEquity",
     "StockRepurchasedDuringPeriodValue",
     "PaymentsForRepurchaseOfRedeemableNoncontrollingInterest"]
    "USD" query_date quarterly tolerance today

/-- `Stock.get_share_issuances`. -/
def get_share_issuances (s : Stock) (query_date : Option String) (quarterly : Bool)
    (tolerance : Int) (today : String) : Res :=
  get_concept s "share issuances"
    ["ProceedsFromIssuanceOfCommonStock", "ProceedsFromIssuanceOrSaleOfEquity",
     "ProceedsFromIssuanceOfSharesUnderIncentiveAndShareBasedCompensationPlansIncludingStockOptions"]
    "USD" query_date quarterly tolerance today

/-- `Stock.get_debt_paydown`. -/
def get_debt_paydown (s : Stock) (query_date : Option String) (quarterly : Bool)
    (tolerance : Int) (today : String) : Res :=
  get_concept s "debt paydown" ["RepaymentsOfLongTermDebt"]
    "USD" query_date quarterly tolerance today

/-- `Stock.get_debt_issuance`. -/
def get_debt_issuance (s : Stock) (query_date : Option String) (quarterly : Bool)
    (tolerance : Int) (today : String) : Res :=
  get_concept s "debt issuance"
    ["ProceedsFromIssuanceOfLongTermDebt", "ProceedsFromIssuanceOfSeniorLongTermDebt"]
    "USD" query_date quarterly tolerance today

/-- `Stock.get_ebit`: the `OperatingIncomeLoss` tag; on any failure,
net income + interest expense + tax expense; if any of those three raises,
revenue − cost of revenue − operating expenses. -/
def get_ebit (s : Stock) (query_date : Option String) (quarterly : Bool)
    (tolerance : Int) (today : String) : Res :=
  match get_concept s "ebit" ["OperatingIncomeLoss"] "USD"
      query_date quarterly tolerance today with
  | Res.ok v => Res.ok v
  | Res.err _ =>
    let level3 : Res :=
      match get_revenue s query_date quarterly tolerance today with
      | Res.err e => Res.err e
      | Res.ok revenue =>
        match get_cost_of_revenue s query_date quarterly tolerance today with
        | Res.err e => Res.err e
        | Res.ok cost_of_revenue =>
          match get_operating_expenses s query_date quarterly tolerance today with
          | Res.err e => Res.err e
          | Res.ok operating_expenses =>
            Res.ok (revenue - cost_of_revenue - operating_expenses)
    match get_net_income s query_date quarterly tolerance today with
    | Res.err _ => level3
    | Res.ok net_income =>
      match get_interest_expense s query_date quarterly tolerance today with
      | Res.err _ => level3
      | Res.ok interest_expense =>
        match get_tax_expense s query_date quarterly tolerance today with
        | Res.err _ => level3
        | Res.ok tax_expense => Res.ok (net_income + interest_expense + tax_expense)

/-- `Stock.get_ebitda`: EBIT + D&A, both failures propagating. -/
def get_ebitda (s : Stock) (query_date : Option String) (quarterly : Bool)
    (tolerance : Int) (today : String) : Res :=
  match get_ebit s query_date quarterly tolerance today with
  | Res.err e => Res.err e
  | Res.ok ebit =>
    match get_depreciation_and_amortization s query_date quarterly tolerance today with
    | Res.err e => Res.err e
    | Res.ok d_and_a => Res.ok (ebit + d_and_a)

/-! ### `Stock.get_vc2_metrics` — the batched ratio computation -/

/-- The ratio map built by `Stock.get_vc2_metrics` (dict keys `pb_ratio`,
`pe_ratio`, `ps_ratio`, `pcf_ratio`, `ev_ebitda`, `shareholder_yield`).
Python computes the ratios with float division; we use `ℚ`. -/
structure VC2 where
  pb : ℚ
  pe : ℚ
  ps : ℚ
  pcf : ℚ
  ev_ebitda : ℚ
  shareholder_yield : ℚ
deriving DecidableEq

inductive VC2Res where
  | ok (m : VC2)
  | err (e : Err)
deriving DecidableEq

/-- `Stock.get_vc2_metrics`.  The awaited external price fetch is passed in as
`price`.  Mirrors the source order: shares and market cap first; then book
value, net income (with preferred-dividends-or-0), revenue, operating cash
flow, total debt, cash and EBITDA — every one of those propagates its
exception, aborting the whole batch — and finally the shareholder-yield
sub-terms, each individually zero-substituted. -/
def get_vc2_metrics (s : Stock) (price : ℚ) (query_date : Option String)
    (quarterly : Bool) (tolerance : Int) (today : String) : VC2Res :=
  match get_shares_outstanding s query_date quarterly tolerance today with
  | Res.err e => VC2Res.err e
  | Res.ok shares =>
    let market_cap : ℚ := price * (shares : ℚ)
    match get_book_value s query_date quarterly tolerance today with
    | Res.err e => VC2Res.err e
    | Res.ok book_val =>
      let bvps : ℚ := (book_val : ℚ) / (shares : ℚ)
      let pb := price / bvps
      match get_net_income s query_date quarterly tolerance today with
      | Res.err e => VC2Res.err e
      | Res.ok net_income =>
        let preferred_dividends :=
          (get_preferred_dividends s query_date quarterly tolerance today).orZero
        let eps : ℚ := ((net_income - preferred_dividends : Int) : ℚ) / (shares : ℚ)
        let pe := price / eps
        match get_revenue s query_date quarterly tolerance today with
        | Res.err e => VC2Res.err e
        | Res.ok sales =>
          let sps : ℚ := (sales : ℚ) / (shares : ℚ)
          let ps := price / sps
          match get_operating_cash_flow s query_date quarterly tolerance today with
          | Res.err e => VC2Res.err e
          | Res.ok ocf =>
            let cfps : ℚ := (ocf : ℚ) / (shares : ℚ)
            let pcf := price / cfps
            match get_total_debt s query_date quarterly tolerance today with
            | Res.err e => VC2Res.err e
            | Res.ok debt =>
              match get_cash s query_date quarterly tolerance today with
              | Res.err e => VC2Res.err e
              | Res.ok cash =>
                let ev : ℚ := market_cap + (debt : ℚ) - (cash : ℚ)
                match get_ebitda s query_date quarterly tolerance today with
                | Res.err e => VC2Res.err e
                | Res.ok ebitda =>
                  let cash_dividends :=
                    (get_cash_dividends s query_date quarterly tolerance today).orZero
                  let share_repurchases :=
                    (get_share_repurchases s query_date quarterly tolerance today).orZero
                  let share_issuances :=
                    (get_share_issuances s query_date quarterly tolerance today).orZero
                  let debt_paydown :=
                    (get_debt_paydown s query_date quarterly tolerance today).orZero
                  let debt_issuance :=
                    (get_debt_issuance s query_date quarterly tolerance today).orZero
                  VC2Res.ok
                    { pb := pb, pe := pe, ps := ps, pcf := pcf,
                      ev_ebitda := ev / (ebitda : ℚ),
                      shareholder_yield :=
                        ((cash_dividends + share_repurchases - share_issuances
                          + debt_paydown - debt_issuance : Int) : ℚ) / market_cap }

/-! ### Specification-side predicates and concrete stores -/

/-- Eligibility of a row for `get_metric`'s window, read off the four filters:
annual unless `quarterly`, non-missing cell, filing date at or before the
query date, and at or after the tolerance lower bound. -/
def eligibleB (column : String) (quarterly : Bool) (qd lower : String) (r : Row) : Bool :=
  (quarterly || r.annual) && (r.get column).isSome && strLeB r.date qd
    && strLeB lower r.date

/-- The zero-substituted five-term sum of `get_current_assets`'s fallback
branch (cash, marketable securities, receivables, inventory, other). -/
def currentAssetsFallbackSum (s : Stock) (query_date : Option String)
    (quarterly : Bool) (tolerance : Int) (today : String) : Int :=
  (get_cash s query_date quarterly tolerance today).orZero
  + (get_marketable_securities s query_date quarterly tolerance today).orZero
  + (get_accounts_receivable s query_date quarterly tolerance today).orZero
  + (get_inventory s query_date quarterly tolerance today).orZero
  + (get_other_current_assets s query_date quarterly tolerance today).orZero

/-- Two-row store: `Revenues` of 80 (2022-06-01) and 100 (2023-01-01), both
annual filings. -/
def stockC1 : Stock :=
  { ticker := "AAA",
    financials :=
      { cols := ["Revenues_USD"],
        rows := [⟨"2022-06-01", true, [("Revenues_USD", some 80)]⟩,
                 ⟨"2023-01-01", true, [("Revenues_USD", some 100)]⟩] } }

/-- A store with no columns and no rows at all. -/
def stockC1e : Stock := { ticker := "EMPTY", financials := { cols := [], rows := [] } }

/-- The C2 scenario store: `AccountsReceivableNetCurrent` = 100 on 2023-01-01
(annual), no `InventoryNet` and no `AssetsCurrent`. -/
def stockC2 : Stock :=
  { ticker := "BBB",
    financials :=
      { cols := ["AccountsReceivableNetCurrent_USD"],
        rows := [⟨"2023-01-01", true, [("AccountsReceivableNetCurrent_USD", some 100)]⟩] } }

/-- Cancellation store: `Cash` = 100 and `AccountsReceivableNetCurrent` = -100
on the same annual filing date, no `AssetsCurrent`. -/
def stockC2x : Stock :=
  { ticker := "CXL",
    financials :=
      { cols := ["Cash_USD", "AccountsReceivableNetCurrent_USD"],
        rows := [⟨"2023-01-01", true,
          [("Cash_USD", some 100), ("AccountsReceivableNetCurrent_USD", some (-100))]⟩] } }

/-- The C3 scenario store: `OperatingIncomeLoss` absent, `NetIncomeLoss` = 50,
`InterestExpense` = 10 (stored positive), `IncomeTaxExpenseBenefit` = 5, all
on one annual filing date. -/
def stockC3 : Stock :=
  { ticker := "EEE",
    financials :=
      { cols := ["NetIncomeLoss_USD", "InterestExpense_USD", "IncomeTaxExpenseBenefit_USD"],
        rows := [⟨"2023-01-01", true,
          [("NetIncomeLoss_USD", some 50), ("InterestExpense_USD", some 10),
           ("IncomeTaxExpenseBenefit_USD", some 5)]⟩] } }

/-- Store whose `A` column exists but holds only a NaN cell, while `B` = 7 is
available: tag `A` fails with the not-found `ValueError` and tag `B` succeeds. -/
def stockC4w : Stock :=
  { ticker := "FFF",
    financials :=
      { cols := ["A_USD", "B_USD"],
        rows := [⟨"2023-01-01", true, [("A_USD", none), ("B_USD", some 7)]⟩] } }

/-- Store lacking the `A` column entirely while `B` = 7 is available. -/
def stockC4x : Stock :=
  { ticker := "GGG",
    financials :=
      { cols := ["B_USD"],
        rows := [⟨"2023-01-01", true, [("B_USD", some 7)]⟩] } }

/-- Store lacking the `Missing` column while `Present` = 3 is available. -/
def stockC5 : Stock :=
  { ticker := "HHH",
    financials :=
      { cols := ["Present_USD"],
        rows := [⟨"2023-01-01", true, [("Present_USD", some 3)]⟩] } }

/-- Store carrying only `Depreciation` = 30 on one annual filing date: every
direct D&A tag is absent and amortization is absent. -/
def stockC6 : Stock :=
  { ticker := "III",
    financials :=
      { cols := ["Depreciation_USD"],
        rows := [⟨"2023-01-01", true, [("Depreciation_USD", some 30)]⟩] } }

/-- Store with current assets and liabilities on two consecutive years:
working capital 30 on 2022-01-01 and 50 on 2023-01-01. -/
def stockC7 : Stock :=
  { ticker := "JJJ",
    financials :=
      { cols := ["AssetsCurrent_USD", "LiabilitiesCurrent_USD"],
        rows := [⟨"2022-01-01", true,
                   [("AssetsCurrent_USD", some 50), ("LiabilitiesCurrent_USD", some 20)]⟩,
                 ⟨"2023-01-01", true,
                   [("AssetsCurrent_USD", some 80), ("LiabilitiesCurrent_USD", some 30)]⟩] } }

/-- Store where shares (10) and revenue (100) resolve but every equity tag is
absent, so `get_book_value` raises. -/
def stockC8 : Stock :=
  { ticker := "KKK",
    financials :=
      { cols := ["EntityCommonStockSharesOutstanding_shares", "Revenues_USD"],
        rows := [⟨"2023-01-01", true,
          [("EntityCommonStockSharesOutstanding_shares", some 10),
           ("Revenues_USD", some 100)]⟩] } }

/-- Store with `Revenues` = 100 on 2023-01-01 (annual). -/
def stockC9 : Stock :=
  { ticker := "MMM",
    financials :=
      { cols := ["Revenues_USD"],
        rows := [⟨"2023-01-01", true, [("Revenues_USD", some 100)]⟩] } }

/-- A second store with the same ticker as `stockC9` but different contents. -/
def stockC10 : Stock :=
  { ticker := "MMM",
    financials :=
      { cols := ["Assets_USD"],
        rows := [⟨"2021-05-05", false, [("Assets_USD", some 1)]⟩] } }

/-! ### Helper lemmas -/

theorem charListLt_self (l : List Char) : charListLt l l = false := by
  induction l with
  | nil => rfl
  | cons a as ih =>
    unfold charListLt
    rw [if_neg (lt_irrefl a.toNat), if_neg (lt_irrefl a.toNat)]
    exact ih

theorem strLeB_self (a : String) : strLeB a a = true := by
  simp [strLeB, strLtB, charListLt_self]

/-- In a `Pairwise R` list with `R` reflexive, the last element is an upper
bound of every member. -/
theorem pairwise_getLast_max {α : Type} (R : α → α → Prop) (hrefl : ∀ a, R a a) :
    ∀ (l : List α) (x : α), l.Pairwise R → l.getLast? = some x → ∀ a ∈ l, R a x := by
  intro l
  induction l with
  | nil => intro x _ hx a ha; simp at ha
  | cons b t ih =>
    intro x hp hx a ha
    rcases List.pairwise_cons.mp hp with ⟨hb, hpt⟩
    cases t with
    | nil =>
      rw [List.getLast?_singleton] at hx
      injection hx with hbx
      subst hbx
      rcases List.mem_singleton.mp ha with rfl
      exact hrefl _
    | cons c t2 =>
      rw [List.getLast?_cons_cons] at hx
      rcases List.mem_cons.mp ha with rfl | hat
      · exact hb x (List.mem_of_mem_getLast? hx)
      · exact ih x hpt hx a hat

/-- Tags that fail with the not-found `ValueError` are skipped by the
`get_concept` loop. -/
theorem conceptLoop_append (s : Stock) (tags₁ rest : List String) (units : String)
    (query_date : Option String) (quarterly : Bool) (tolerance : Int) (today : String)
    (h : ∀ t ∈ tags₁,
      (get_metric s t units query_date quarterly tolerance today).isValueError = true) :
    conceptLoop s (tags₁ ++ rest) units query_date quarterly tolerance today
      = conceptLoop s rest units query_date quarterly tolerance today := by
  induction tags₁ with
  | nil => rfl
  | cons t ts ih =>
    have ht := h t (List.mem_cons_self t ts)
    have hts : ∀ t' ∈ ts,
        (get_metric s t' units query_date quarterly tolerance today).isValueError = true :=
      fun t' h' => h t' (List.mem_cons_of_mem _ h')
    rw [List.cons_append]
    cases hm : get_metric s t units query_date quarterly tolerance today with
    | ok v => rw [hm] at ht; simp [Res.isValueError] at ht
    | err e =>
      cases e with
      | valueError m => simp only [conceptLoop, hm]; exact ih hts
      | keyError k => rw [hm] at ht; simp [Res.isValueError] at ht

/-- Membership in the filtered window is exactly eligibility. -/
theorem mem_metricWindow_iff (s : Stock) (column qd : String) (quarterly : Bool)
    (dt : Date) (tolerance : Int) (r : Row) :
    r ∈ metricWindow s column qd quarterly dt tolerance ↔
      r ∈ s.financials.rows
        ∧ eligibleB column quarterly qd (weeksAgoStr dt tolerance) r = true := by
  cases hq : quarterly <;>
    · simp [metricWindow, eligibleB, hq, List.mem_filter, and_assoc]
      tauto

/-- The filtered window of a date-sorted store is date-sorted. -/
theorem metricWindow_pairwise (s : Stock) (column qd : String) (quarterly : Bool)
    (dt : Date) (tolerance : Int)
    (hsort : s.financials.rows.Pairwise (fun a b => strLeB a.date b.date = true)) :
    (metricWindow s column qd quarterly dt tolerance).Pairwise
      (fun a b => strLeB a.date b.date = true) := by
  cases hq : quarterly
  · simp only [metricWindow, hq]
    rw [if_neg Bool.false_ne_true]
    exact (((hsort.filter _).filter _).filter _).filter _
  · simp only [metricWindow, hq, if_true]
    exact ((hsort.filter _).filter _).filter _

/-- **C1** (amended).  For a date-sorted store and a valid query date `D`:
(1) a successful `get_metric` returns the value of an eligible row — a
non-missing cell, annual when `quarterly = false`, filing date at or before
`D` and at or after `D` minus `7·tolerance` days — and that row is the most
recent eligible one; (2) when the `(tag, unit)` column exists but no row is
eligible, the call fails with the not-found `ValueError`; (3) when the column
is absent, it fails with a `KeyError` instead of the not-found error. -/
theorem claim_C1 (s : Stock) (metric units D today : String) (quarterly : Bool)
    (tolerance : Int) (dt : Date)
    (hsort : s.financials.rows.Pairwise (fun a b => strLeB a.date b.date = true))
    (hD : strptime D = some dt) :
    (∀ v, get_metric s metric units (some D) quarterly tolerance today = Res.ok v →
      ∃ r ∈ s.financials.rows,
        r.get (metric ++ "_" ++ units) = some v ∧
        (quarterly = false → r.annual = true) ∧
        strLeB r.date D = true ∧
        strLeB (weeksAgoStr dt tolerance) r.date = true ∧
        ∀ r' ∈ s.financials.rows,
          eligibleB (metric ++ "_" ++ units) quarterly D (weeksAgoStr dt tolerance) r' = true →
          strLeB r'.date r.date = true)
    ∧ (s.financials.cols.contains (metric ++ "_" ++ units) = true →
       (∀ r ∈ s.financials.rows,
          eligibleB (metric ++ "_" ++ units) quarterly D (weeksAgoStr dt tolerance) r = false) →
       get_metric s metric units (some D) quarterly tolerance today =
         Res.err (Err.valueError
           (notFoundMsg (periodStr quarterly) metric s.ticker tolerance D)))
    ∧ (s.financials.cols.contains (metric ++ "_" ++ units) = false →
       get_metric s metric units (some D) quarterly tolerance today =
         Res.err (Err.keyError (metric ++ "_" ++ units))) := by
  refine ⟨?_, ?_, ?_⟩
  · intro v hv
    by_cases hc : s.financials.cols.contains (metric ++ "_" ++ units) = false
    · simp only [get_metric, Option.getD, if_pos hc] at hv
      exact absurd hv (by simp)
    · simp only [get_metric, Option.getD, if_neg hc, hD] at hv
      cases hl : (metricWindow s (metric ++ "_" ++ units) D quarterly dt tolerance).getLast? with
      | none => rw [hl] at hv; exact absurd hv (by simp)
      | some r =>
        rw [hl] at hv
        have hv2 : ((r.get (metric ++ "_" ++ units)).getD 0) = v := by simpa using hv
        have hr := List.mem_of_mem_getLast? hl
        rw [mem_metricWindow_iff] at hr
        obtain ⟨hrmem, helig⟩ := hr
        have helig2 := helig
        simp only [eligibleB, Bool.and_eq_true, Bool.or_eq_true] at helig2
        obtain ⟨⟨⟨hqa, hsome⟩, hle⟩, hge⟩ := helig2
        refine ⟨r, hrmem, ?_, ?_, hle, hge, ?_⟩
        · cases hsv : r.get (metric ++ "_" ++ units) with
          | none => rw [hsv] at hsome; simp at hsome
          | some w =>
            rw [hsv] at hv2
            simp only [Option.getD_some] at hv2
            rw [hv2]
        · intro hqf
          rcases hqa with hq | ha
          · rw [hqf] at hq; exact absurd hq (by simp)
          · exact ha
        · intro r' hr' he'
          have hmem : r' ∈ metricWindow s (metric ++ "_" ++ units) D quarterly dt tolerance :=
            (mem_metricWindow_iff s _ D quarterly dt tolerance r').mpr ⟨hr', he'⟩
          exact pairwise_getLast_max (fun a b : Row => strLeB a.date b.date = true)
            (fun a => strLeB_self a.date) _ r
            (metricWindow_pairwise s _ D quarterly dt tolerance hsort) hl r' hmem
  · intro hc hnone
    have hempty : metricWindow s (metric ++ "_" ++ units) D quarterly dt tolerance = [] := by
      apply List.eq_nil_iff_forall_not_mem.mpr
      intro r hr
      rw [mem_metricWindow_iff] at hr
      rw [hnone r hr.1] at hr
      exact absurd hr.2 (by simp)
    simp only [get_metric, Option.getD, hD]
    rw [if_neg (by rw [hc]; exact fun h => Bool.noConfusion h), hempty]
    simp [List.getLast?_nil]
  · intro hc
    simp only [get_metric, Option.getD]
    rw [if_pos hc]

/-- Witness for C1: on the concrete two-row store, a query date beyond the
tolerance window of both filings yields the not-found `ValueError`. -/
theorem claim_C1_witness :
    get_metric stockC1 "Revenues" "USD" (some "2025-01-01") false 52 "x" =
      Res.err (Err.valueError (notFoundMsg "annual" "Revenues" "AAA" 52 "2025-01-01")) :=
  (claim_C1 stockC1 "Revenues" "USD" "2025-01-01" "x" false 52 ⟨2025, 1, 1⟩
    (by decide) (by decide)).2.1 (by decide) (by decide)

/-- Counterexample to C1 as stated: in a store whose `(tag, unit)` series is
absent, no eligible data point exists, yet the call fails with a `KeyError`,
not with the not-found `ValueError` the claim promises. -/
theorem claim_C1_cex :
    get_metric stockC1e "Revenues" "USD" (some "2023-01-01") false 52 "x" =
      Res.err (Err.keyError "Revenues_USD")
    ∧ (get_metric stockC1e "Revenues" "USD" (some "2023-01-01") false 52 "x").isValueError
        = false := by
  decide

/-- **C2** (amended).  `get_current_assets` returns the `AssetsCurrent` value
whenever that tag resolves; otherwise it returns the zero-substituted sum of
the five sub-terms, and it reports the not-found `ValueError` exactly when
that sum is 0 (all sub-terms missing or zero is one such case; cancelling
non-zero sub-terms also produce it). -/
theorem claim_C2 (s : Stock) (query_date : Option String) (quarterly : Bool)
    (tolerance : Int) (today : String) :
    (∀ v, get_concept s "current assets" ["AssetsCurrent"] "USD"
        query_date quarterly tolerance today = Res.ok v →
      get_current_assets s query_date quarterly tolerance today = Res.ok v)
    ∧ ((get_concept s "current assets" ["AssetsCurrent"] "USD"
          query_date quarterly tolerance today).isOk = false →
       (currentAssetsFallbackSum s query_date quarterly tolerance today ≠ 0 →
          get_current_assets s query_date quarterly tolerance today =
            Res.ok (currentAssetsFallbackSum s query_date quarterly tolerance today))
       ∧ (currentAssetsFallbackSum s query_date quarterly tolerance today = 0 →
          get_current_assets s query_date quarterly tolerance today =
            Res.err (Err.valueError
              (notFoundMsg (periodStr quarterly) "current assets" s.ticker tolerance
                (qdateOrToday query_date))))) := by
  constructor
  · intro v hv
    simp only [get_current_assets]
    rw [hv]
  · intro hfail
    cases hg : get_concept s "current assets" ["AssetsCurrent"] "USD"
        query_date quarterly tolerance today with
    | ok v => rw [hg] at hfail; simp [Res.isOk] at hfail
    | err e =>
      constructor
      · intro hne
        simp only [currentAssetsFallbackSum] at hne ⊢
        simp only [get_current_assets]
        rw [hg, if_neg hne]
      · intro heq
        simp only [currentAssetsFallbackSum] at heq
        simp only [get_current_assets]
        rw [hg, if_pos heq]

/-- Witness for C2: the claimed scenario.  `AccountsReceivableNetCurrent` = 100
on 2023-01-01 (annual), no `InventoryNet`, no `AssetsCurrent`; querying
current assets at 2023-02-01 with tolerance 52, `quarterly = false` gives 100. -/
theorem claim_C2_witness :
    get_current_assets stockC2 (some "2023-02-01") false 52 "x" = Res.ok 100 :=
  ((claim_C2 stockC2 (some "2023-02-01") false 52 "x").2 (by decide)).1 (by decide)

/-- Counterexample to C2 as stated: with `Cash` = 100 and receivables = -100
the zero-substituted sum cancels to 0, so the call reports the not-found
`ValueError` even though no sub-term is missing and none is zero — the
"NotFound exactly when all sub-terms are missing or zero" clause is false. -/
theorem claim_C2_cex :
    get_current_assets stockC2x (some "2023-02-01") false 52 "x" =
      Res.err (Err.valueError (notFoundMsg "annual" "current assets" "CXL" 52 "2023-02-01"))
    ∧ get_cash stockC2x (some "2023-02-01") false 52 "x" = Res.ok 100
    ∧ get_accounts_receivable stockC2x (some "2023-02-01") false 52 "x" = Res.ok (-100) := by
  decide

/-- **C3** (confirmed).  `get_ebit` resolves through the three-level fallback
chain: the `OperatingIncomeLoss` tag; else net income + interest expense +
tax expense when all three resolve; else revenue − cost of revenue −
operating expenses when any of the three middle terms raises.  Interest
expense is the absolute value of the resolved tag value. -/
theorem claim_C3 (s : Stock) (query_date : Option String) (quarterly : Bool)
    (tolerance : Int) (today : String) :
    (∀ v, get_concept s "ebit" ["OperatingIncomeLoss"] "USD"
        query_date quarterly tolerance today = Res.ok v →
      get_ebit s query_date quarterly tolerance today = Res.ok v)
    ∧ (∀ a b c, (get_concept s "ebit" ["OperatingIncomeLoss"] "USD"
          query_date quarterly tolerance today).isOk = false →
        get_net_income s query_date quarterly tolerance today = Res.ok a →
        get_interest_expense s query_date quarterly tolerance today = Res.ok b →
        get_tax_expense s query_date quarterly tolerance today = Res.ok c →
        get_ebit s query_date quarterly tolerance today = Res.ok (a + b + c))
    ∧ (∀ r cr ox, (get_concept s "ebit" ["OperatingIncomeLoss"] "USD"
          query_date quarterly tolerance today).isOk = false →
        ((get_net_income s query_date quarterly tolerance today).isOk = false
          ∨ (get_interest_expense s query_date quarterly tolerance today).isOk = false
          ∨ (get_tax_expense s query_date quarterly tolerance today).isOk = false) →
        get_revenue s query_date quarterly tolerance today = Res.ok r →
        get_cost_of_revenue s query_date quarterly tolerance today = Res.ok cr →
        get_operating_expenses s query_date quarterly tolerance today = Res.ok ox →
        get_ebit s query_date quarterly tolerance today = Res.ok (r - cr - ox))
    ∧ (∀ v, get_concept s "interest expense"
        ["InterestExpense", "InterestExpenseDebt", "InterestAndDebtExpense",
         "InterestExpenseBorrowings", "InterestIncomeExpenseNonoperatingNet",
         "InterestCostsIncurred", "InterestIncomeExpenseNet", "InterestPaidNet",
         "InterestPaid"] "USD" query_date quarterly tolerance today = Res.ok v →
        get_interest_expense s query_date quarterly tolerance today =
          Res.ok (if v < 0 then -v else v)) := by
  refine ⟨?_, ?_, ?_, ?_⟩
  · intro v hv
    simp only [get_ebit]
    rw [hv]
  · intro a b c hfail hni hie hte
    cases hg : get_concept s "ebit" ["OperatingIncomeLoss"] "USD"
        query_date quarterly tolerance today with
    | ok v => rw [hg] at hfail; simp [Res.isOk] at hfail
    | err e => simp only [get_ebit, hg, hni, hie, hte]
  · intro r cr ox hfail hmid hr hcr hox
    cases hg : get_concept s "ebit" ["OperatingIncomeLoss"] "USD"
        query_date quarterly tolerance today with
    | ok v => rw [hg] at hfail; simp [Res.isOk] at hfail
    | err e =>
      cases hni : get_net_income s query_date quarterly tolerance today with
      | err e1 => simp only [get_ebit, hg, hni, hr, hcr, hox]
      | ok a =>
        cases hie : get_interest_expense s query_date quarterly tolerance today with
        | err e2 => simp only [get_ebit, hg, hni, hie, hr, hcr, hox]
        | ok b =>
          cases hte : get_tax_expense s query_date quarterly tolerance today with
          | err e3 => simp only [get_ebit, hg, hni, hie, hte, hr, hcr, hox]
          | ok c =>
            rcases hmid with h | h | h
            · rw [hni] at h; simp [Res.isOk] at h
            · rw [hie] at h; simp [Res.isOk] at h
            · rw [hte] at h; simp [Res.isOk] at h
  · intro v hv
    simp only [get_interest_expense]
    rw [hv]

/-- Witness for C3: the claimed scenario.  `OperatingIncomeLoss` missing,
`NetIncomeLoss` = 50, `InterestExpense` = 10 stored positive,
`IncomeTaxExpenseBenefit` = 5 at matching eligible dates: EBIT is 65. -/
theorem claim_C3_witness :
    get_ebit stockC3 (some "2023-02-01") false 52 "x" = Res.ok 65 :=
  (claim_C3 stockC3 (some "2023-02-01") false 52 "x").2.1 50 10 5
    (by decide) (by decide) (by decide) (by decide)

/-- **C4** (amended).  `get_concept` tries the tags in listed order and
returns the value of the first tag that succeeds, provided every earlier tag
failed with the not-found `ValueError`; if every tag fails that way, it
raises the not-found `ValueError` carrying the concept label; but a tag whose
series is absent raises a `KeyError` that aborts the scan. -/
theorem claim_C4 (s : Stock) (concept units : String) (query_date : Option String)
    (quarterly : Bool) (tolerance : Int) (today : String) :
    (∀ tags₁ t tags₂ v,
      (∀ t2 ∈ tags₁,
        (get_metric s t2 units query_date quarterly tolerance today).isValueError = true) →
      get_metric s t units query_date quarterly tolerance today = Res.ok v →
      get_concept s concept (tags₁ ++ t :: tags₂) units query_date quarterly tolerance today
        = Res.ok v)
    ∧ (∀ tags,
      (∀ t ∈ tags,
        (get_metric s t units query_date quarterly tolerance today).isValueError = true) →
      get_concept s concept tags units query_date quarterly tolerance today =
        Res.err (Err.valueError
          (notFoundMsg (periodStr quarterly) concept s.ticker tolerance
            (qdateOrToday query_date))))
    ∧ (∀ tags₁ t tags₂ k,
      (∀ t2 ∈ tags₁,
        (get_metric s t2 units query_date quarterly tolerance today).isValueError = true) →
      get_metric s t units query_date quarterly tolerance today = Res.err (Err.keyError k) →
      get_concept s concept (tags₁ ++ t :: tags₂) units query_date quarterly tolerance today
        = Res.err (Err.keyError k)) := by
  refine ⟨?_, ?_, ?_⟩
  · intro tags₁ t tags₂ v h1 hv
    simp only [get_concept]
    rw [conceptLoop_append s tags₁ (t :: tags₂) units query_date quarterly tolerance today h1]
    simp only [conceptLoop]
    rw [hv]
  · intro tags hall
    have hnone : conceptLoop s tags units query_date quarterly tolerance today = none := by
      have happ := conceptLoop_append s tags [] units query_date quarterly tolerance today hall
      rw [List.append_nil] at happ
      rw [happ]
      rfl
    simp only [get_concept, hnone]
  · intro tags₁ t tags₂ k h1 hk
    simp only [get_concept]
    rw [conceptLoop_append s tags₁ (t :: tags₂) units query_date quarterly tolerance today h1]
    simp only [conceptLoop]
    rw [hk]

/-- Witness for C4: tag `A` is present but all-NaN (not-found `ValueError`),
tag `B` resolves to 7, so the concept resolves to 7 from the second tag. -/
theorem claim_C4_witness :
    get_concept stockC4w "thing" (["A"] ++ "B" :: []) "USD" (some "2023-02-01") false 52 "x"
      = Res.ok 7 :=
  (claim_C4 stockC4w "thing" "USD" (some "2023-02-01") false 52 "x").1
    ["A"] "B" [] 7 (by decide) (by decide)

/-- Counterexample to C4 as stated: tag `A` has no column, tag `B` would
succeed with 7, yet the call returns the `KeyError` for `A` — neither the
first succeeding tag's value nor a NotFound carrying the concept label. -/
theorem claim_C4_cex :
    get_concept stockC4x "thing" ["A", "B"] "USD" (some "2023-02-01") false 52 "x" =
      Res.err (Err.keyError "A_USD")
    ∧ get_metric stockC4x "B" "USD" (some "2023-02-01") false 52 "x" = Res.ok 7 := by
  decide

/-- **C5** (code bug).  The spec requires an absent `(tag, unit)` series to
fail with NotFound — the same kind as an empty window — so that the tag scan
continues.  The code instead hits a pandas `KeyError` when selecting the
missing column, which `except ValueError` does not catch: `get_metric` on the
absent tag raises `KeyError` (not the not-found `ValueError`), and
`get_concept` aborts instead of continuing to the tag `Present` that would
resolve to 3. -/
theorem claim_C5 :
    get_metric stockC5 "Missing" "USD" (some "2023-02-01") false 52 "x" =
      Res.err (Err.keyError "Missing_USD")
    ∧ (get_metric stockC5 "Missing" "USD" (some "2023-02-01") false 52 "x").isValueError
        = false
    ∧ get_concept stockC5 "thing" ["Missing", "Present"] "USD" (some "2023-02-01") false 52 "x"
        = Res.err (Err.keyError "Missing_USD")
    ∧ get_metric stockC5 "Present" "USD" (some "2023-02-01") false 52 "x" = Res.ok 3 := by
  decide

/-- **C6** (confirmed).  `get_depreciation_and_amortization` first tries its
four direct tags; on failure it computes depreciation-or-0 plus
amortization-or-0, and it raises the not-found `ValueError` exactly when both
zero-substituted sub-terms are 0. -/
theorem claim_C6 (s : Stock) (query_date : Option String) (quarterly : Bool)
    (tolerance : Int) (today : String) :
    (∀ v, get_concept s "depreciation and amortization"
        ["DepreciationAndAmortization", "DepreciationDepletionAndAmortization",
         "DepreciationAmortizationAndAccretionNet", "OtherDepreciationAndAmortization"]
        "USD" query_date quarterly tolerance today = Res.ok v →
      get_depreciation_and_amortization s query_date quarterly tolerance today = Res.ok v)
    ∧ ((get_concept s "depreciation and amortization"
          ["DepreciationAndAmortization", "DepreciationDepletionAndAmortization",
           "DepreciationAmortizationAndAccretionNet", "OtherDepreciationAndAmortization"]
          "USD" query_date quarterly tolerance today).isOk = false →
       ((get_depreciation s query_date quarterly tolerance today).orZero = 0
          ∧ (get_amortization s query_date quarterly tolerance today).orZero = 0 →
         get_depreciation_and_amortization s query_date quarterly tolerance today =
           Res.err (Err.valueError
             (notFoundMsg (periodStr quarterly) "depreciation and amortization" s.ticker
               tolerance (qdateOrToday query_date))))
       ∧ (¬ ((get_depreciation s query_date quarterly tolerance today).orZero = 0
          ∧ (get_amortization s query_date quarterly tolerance today).orZero = 0) →
         get_depreciation_and_amortization s query_date quarterly tolerance today =
           Res.ok ((get_depreciation s query_date quarterly tolerance today).orZero
             + (get_amortization s query_date quarterly tolerance today).orZero))) := by
  constructor
  · intro v hv
    simp only [get_depreciation_and_amortization]
    rw [hv]
  · intro hfail
    cases hg : get_concept s "depreciation and amortization"
        ["DepreciationAndAmortization", "DepreciationDepletionAndAmortization",
         "DepreciationAmortizationAndAccretionNet", "OtherDepreciationAndAmortization"]
        "USD" query_date quarterly tolerance today with
    | ok v => rw [hg] at hfail; simp [Res.isOk] at hfail
    | err e =>
      constructor
      · intro hz
        simp only [get_depreciation_and_amortization]
        rw [hg, if_pos hz]
      · intro hnz
        simp only [get_depreciation_and_amortization]
        rw [hg, if_neg hnz]

/-- Witness for C6: only `Depreciation` = 30 exists; the direct tags fail,
amortization substitutes 0, and the fallback returns 30. -/
theorem claim_C6_witness :
    get_depreciation_and_amortization stockC6 (some "2023-02-01") false 52 "x" = Res.ok 30 :=
  ((claim_C6 stockC6 (some "2023-02-01") false 52 "x").2 (by decide)).2 (by decide)

/-- **C7** (confirmed).  `get_change_in_working_capital` at a valid query date
`D` is working capital at `D` minus working capital at `D` minus one calendar
year (`relativedelta(years=1)`), both with the same `quarterly`/`tolerance`
parameters; the capex fallback likewise resolves PP&E at `D` and at `D` minus
one year with identical parameters and adds the current D&A. -/
theorem claim_C7 (s : Stock) (D today : String) (quarterly : Bool) (tolerance : Int)
    (dt : Date) (hD : strptime D = some dt) :
    (∀ a b, get_working_capital s (some D) quarterly tolerance today = Res.ok a →
       get_working_capital s (some (strftime (yearAgo dt))) quarterly tolerance today
         = Res.ok b →
       get_change_in_working_capital s (some D) quarterly tolerance today = Res.ok (a - b))
    ∧ (∀ p1 p0 da, (get_concept s "capital expenditures"
          ["CapitalExpenditures", "PaymentsToAcquirePropertyPlantAndEquipment",
           "PaymentsToAcquireProductiveAssets"] "USD"
          (some D) quarterly tolerance today).isOk = false →
       get_property_plant_equipment s (some D) quarterly tolerance today = Res.ok p1 →
       get_property_plant_equipment s (some (strftime (yearAgo dt))) quarterly tolerance today
         = Res.ok p0 →
       get_depreciation_and_amortization s (some D) quarterly tolerance today = Res.ok da →
       get_capex s (some D) quarterly tolerance today = Res.ok (p1 - p0 + da)) := by
  constructor
  · intro a b ha hb
    simp only [get_change_in_working_capital, Option.getD, hD, ha, hb]
  · intro p1 p0 da hfail hp1 hp0 hda
    cases hg : get_concept s "capital expenditures"
        ["CapitalExpenditures", "PaymentsToAcquirePropertyPlantAndEquipment",
         "PaymentsToAcquireProductiveAssets"] "USD"
        (some D) quarterly tolerance today with
    | ok v => rw [hg] at hfail; simp [Res.isOk] at hfail
    | err e => simp only [get_capex, Option.getD, hg, hD, hp1, hp0, hda]

/-- Witness for C7: working capital 50 at 2023-02-01 and 30 one year earlier
give a change in working capital of 20. -/
theorem claim_C7_witness :
    get_change_in_working_capital stockC7 (some "2023-02-01") false 52 "x" = Res.ok 20 :=
  (claim_C7 stockC7 "2023-02-01" "x" false 52 ⟨2023, 2, 1⟩ (by decide)).1 50 30
    (by decide) (by decide)

/-- **C8** (amended).  In `get_vc2_metrics` only the preferred-dividends term
and the five shareholder-yield sub-terms are isolated (zero-substituted on
their own failure): when shares resolve but `get_book_value` raises, the
whole batch aborts with that error and no ratio map is returned; when every
propagating sub-term resolves, the batch returns the full map with the
preferred-dividends and shareholder-yield terms zero-substituted. -/
theorem claim_C8 (s : Stock) (price : ℚ) (query_date : Option String) (quarterly : Bool)
    (tolerance : Int) (today : String) :
    (∀ n e, get_shares_outstanding s query_date quarterly tolerance today = Res.ok n →
       get_book_value s query_date quarterly tolerance today = Res.err e →
       get_vc2_metrics s price query_date quarterly tolerance today = VC2Res.err e)
    ∧ (∀ shares book_val net_income sales ocf debt cash ebitda,
        get_shares_outstanding s query_date quarterly tolerance today = Res.ok shares →
        get_book_value s query_date quarterly tolerance today = Res.ok book_val →
        get_net_income s query_date quarterly tolerance today = Res.ok net_income →
        get_revenue s query_date quarterly tolerance today = Res.ok sales →
        get_operating_cash_flow s query_date quarterly tolerance today = Res.ok ocf →
        get_total_debt s query_date quarterly tolerance today = Res.ok debt →
        get_cash s query_date quarterly tolerance today = Res.ok cash →
        get_ebitda s query_date quarterly tolerance today = Res.ok ebitda →
        get_vc2_metrics s price query_date quarterly tolerance today =
          VC2Res.ok
            { pb := price / ((book_val : ℚ) / (shares : ℚ)),
              pe := price / (((net_income
                - (get_preferred_dividends s query_date quarterly tolerance today).orZero
                  : Int) : ℚ) / (shares : ℚ)),
              ps := price / ((sales : ℚ) / (shares : ℚ)),
              pcf := price / ((ocf : ℚ) / (shares : ℚ)),
              ev_ebitda := (price * (shares : ℚ) + (debt : ℚ) - (cash : ℚ)) / (ebitda : ℚ),
              shareholder_yield :=
                (((get_cash_dividends s query_date quarterly tolerance today).orZero
                  + (get_share_repurchases s query_date quarterly tolerance today).orZero
                  - (get_share_issuances s query_date quarterly tolerance today).orZero
                  + (get_debt_paydown s query_date quarterly tolerance today).orZero
                  - (get_debt_issuance s query_date quarterly tolerance today).orZero
                  : Int) : ℚ) / (price * (shares : ℚ)) }) := by
  constructor
  · intro n e hn he
    simp only [get_vc2_metrics, hn, he]
  · intro shares book_val net_income sales ocf debt cash ebitda
      h1 h2 h3 h4 h5 h6 h7 h8
    simp only [get_vc2_metrics, h1, h2, h3, h4, h5, h6, h7, h8]

/-- Witness for C8: shares resolve (10) but every equity tag is absent, so
`get_book_value` raises and the whole batch aborts with its error. -/
theorem claim_C8_witness :
    get_vc2_metrics stockC8 30 (some "2023-02-01") false 52 "x" =
      VC2Res.err (Err.keyError "StockholdersEquity_USD") :=
  (claim_C8 stockC8 30 (some "2023-02-01") false 52 "x").1 10
    (Err.keyError "StockholdersEquity_USD") (by decide) (by decide)

/-- Counterexample to C8 as stated: the book-value sub-term required only by
the price-to-book ratio fails, yet the sibling ratios are not returned — the
whole call yields an error even though revenue (100) and shares (10), the
inputs of the price-to-sales ratio, are resolvable. -/
theorem claim_C8_cex :
    get_vc2_metrics stockC8 30 (some "2023-02-01") false 52 "y" =
      VC2Res.err (Err.keyError "StockholdersEquity_USD")
    ∧ get_revenue stockC8 (some "2023-02-01") false 52 "y" = Res.ok 100
    ∧ get_shares_outstanding stockC8 (some "2023-02-01") false 52 "y" = Res.ok 10 := by
  decide

/-- **C9** (amended).  There is no distinct InvalidInput rejection: a
malformed `query_date` surfaces as the `strptime` `ValueError` — the same
exception class as the not-found error — raised only at the lower-bound
filter (after the annual, non-NaN and upper-bound filters ran), and
`get_concept` treats it as a per-tag NotFound, converting it into the
not-found message carrying the concept label. -/
theorem claim_C9 (s : Stock) (tag units qd : String) (quarterly : Bool)
    (tolerance : Int) (today : String) :
    (strptime qd = none →
      s.financials.cols.contains (tag ++ "_" ++ units) = true →
      get_metric s tag units (some qd) quarterly tolerance today =
        Res.err (Err.valueError (strptimeMsg qd)))
    ∧ (∀ concept tags, strptime qd = none →
        (∀ t ∈ tags, s.financials.cols.contains (t ++ "_" ++ units) = true) →
        get_concept s concept tags units (some qd) quarterly tolerance today =
          Res.err (Err.valueError
            (notFoundMsg (periodStr quarterly) concept s.ticker tolerance qd))) := by
  have hmet : ∀ tag2, strptime qd = none →
      s.financials.cols.contains (tag2 ++ "_" ++ units) = true →
      get_metric s tag2 units (some qd) quarterly tolerance today =
        Res.err (Err.valueError (strptimeMsg qd)) := by
    intro tag2 hn hc
    simp only [get_metric, Option.getD]
    rw [if_neg (by rw [hc]; exact fun h => Bool.noConfusion h), hn]
  refine ⟨hmet tag, ?_⟩
  intro concept tags hn hall
  have hloop : conceptLoop s tags units (some qd) quarterly tolerance today = none := by
    induction tags with
    | nil => rfl
    | cons t ts ih =>
      simp only [conceptLoop]
      rw [hmet t hn (hall t (List.mem_cons_self t ts))]
      exact ih (fun t2 h2 => hall t2 (List.mem_cons_of_mem _ h2))
  simp only [get_concept, hloop, qdateOrToday]

/-- Witness for C9: on a store whose `Revenues` column exists, resolving the
concept at the malformed date `not-a-date` ends in the ordinary not-found
`ValueError` carrying the concept label — not a distinct InvalidInput. -/
theorem claim_C9_witness :
    get_concept stockC9 "revenue" ["Revenues"] "USD" (some "not-a-date") false 52 "x" =
      Res.err (Err.valueError (notFoundMsg "annual" "revenue" "MMM" 52 "not-a-date")) :=
  (claim_C9 stockC9 "Revenues" "USD" "not-a-date" false 52 "x").2
    "revenue" ["Revenues"] (by decide) (by decide)

/-- Counterexample to C9 as stated: the malformed date is not rejected with a
distinct error kind before resolution — it raises the `strptime` `ValueError`
(`isValueError`, the class the claim reserves for NotFound); and a negative
tolerance is not rejected either: data resolvable at tolerance 0 simply
becomes the not-found `ValueError` at tolerance -1 (empty window). -/
theorem claim_C9_cex :
    get_metric stockC9 "Revenues" "USD" (some "not-a-date") false 52 "x" =
      Res.err (Err.valueError (strptimeMsg "not-a-date"))
    ∧ (get_metric stockC9 "Revenues" "USD" (some "not-a-date") false 52 "x").isValueError
        = true
    ∧ get_metric stockC9 "Revenues" "USD" (some "2023-01-01") false 0 "x" = Res.ok 100
    ∧ get_metric stockC9 "Revenues" "USD" (some "2023-01-01") false (-1) "x" =
        Res.err (Err.valueError (notFoundMsg "annual" "Revenues" "MMM" (-1) "2023-01-01")) := by
  decide

/-- **C10** (confirmed).  `get_concept` with an empty candidate-tag list always
raises the not-found `ValueError` carrying the concept label, and the result
never consults the financials table: any two stores with the same ticker give
the identical result, for any query date, period flag and tolerance. -/
theorem claim_C10 (s s2 : Stock) (concept units : String) (query_date : Option String)
    (quarterly : Bool) (tolerance : Int) (today today2 : String)
    (h : s2.ticker = s.ticker) :
    get_concept s concept [] units query_date quarterly tolerance today =
      Res.err (Err.valueError
        (notFoundMsg (periodStr quarterly) concept s.ticker tolerance
          (qdateOrToday query_date)))
    ∧ get_concept s2 concept [] units query_date quarterly tolerance today2 =
        get_concept s concept [] units query_date quarterly tolerance today := by
  constructor
  · rfl
  · simp only [get_concept, conceptLoop, h]

/-- Witness for C10: two stores with ticker `MMM` but entirely different
tables produce the same empty-tag-list NotFound. -/
theorem claim_C10_witness :
    get_concept stockC9 "anything" [] "USD" (some "2023-02-01") false 52 "x" =
      Res.err (Err.valueError (notFoundMsg "annual" "anything" "MMM" 52 "2023-02-01"))
    ∧ get_concept stockC10 "anything" [] "USD" (some "2023-02-01") false 52 "y" =
        get_concept stockC9 "anything" [] "USD" (some "2023-02-01") false 52 "x" :=
  claim_C10 stockC9 stockC10 "anything" "USD" (some "2023-02-01") false 52 "x" "y" rfl
